import Mathlib

/-!
# Verification of the go-ocf/sdk device-ownership (onboarding) engine

Shallow embedding of the ownership-transfer code of `go-ocf/sdk`:

* `local/ownDevice.go` — `OwnDevice`, `ownDeviceFindClient`,
  `ManufacturerOTMClient.ProvisionOwnerCredentials`, `iotivityHack`,
  `encodeToDer`;
* `local/coapClient.go` — `DialTcpTls` (its `VerifyPeerCertificate`
  callback) and `coapClient.IsIotivity`;
* `local/resource/discover.go` — `DialDiscoveryAddresses`;
* the client-level `OwnDevice` wrapper (unnamed source file).

Network effects are embedded by passing the outcome of every network
round-trip explicitly (a `...World` record of oracle results) and by
returning, next to the Go function's result, the trace of operations the
function attempted, in order.  Each Go error-return site becomes its own
constructor of an error type, so theorems can speak about which failure
occurred without reasoning about `fmt.Errorf` message strings.
-/

namespace OcfSdk

/-- Errors of external collaborators are kept abstract as strings. -/
abbrev Err := String

/-! ## Schema data model

The `schema` package of the repository is not part of the provided
sources; its data carriers are modelled from the spec's data model (§3).
Only the fields the embedded functions read or write are included. -/

/-- Modelled from the spec: ownership transfer method kinds
(`schema.OwnerTransferMethod`); §4.2 names manufacturer-certificate as one
method among a small closed set. -/
inductive OwnerTransferMethod
  | JustWorks
  | SharedPin
  | ManufacturerCertificate
deriving DecidableEq, Repr

/-- Modelled from the spec: device operational states
(`schema.OperationalState`); §3 lists ReadyForOTM (RFOTM),
ReadyForProvisioning, ReadyForNormalOperation. -/
inductive OperationalState
  | RFOTM
  | RFPRO
  | RFNOP
  | SRESET
deriving DecidableEq, Repr

/-- Modelled from the spec: device operational modes
(`schema.OperationalMode`); §4.3 step 4 writes the client-directed mode. -/
inductive OperationalMode
  | ServerDirected
  | ClientDirected
deriving DecidableEq, Repr

/-- Modelled from the spec: the Ownership Document (`schema.Doxm`), §3. -/
structure Doxm where
  deviceId : String
  owned : Bool
  deviceOwner : String
  supportedOwnerTransferMethods : List OwnerTransferMethod
deriving DecidableEq, Repr

/-- Modelled from the spec: the Ownership Document update payload
(`schema.DoxmUpdate`).  `none` / `false` model Go zero values of fields a
struct literal leaves unset. -/
structure DoxmUpdate where
  deviceOwner : Option String := none
  resourceOwner : Option String := none
  deviceId : Option String := none
  owned : Bool := false
  selectOwnerTransferMethod : Option OwnerTransferMethod := none
deriving DecidableEq, Repr

/-- Modelled from the spec: onboarding sub-record of the Provisioning
Status Document (`schema.DeviceOnboardingState`), §3. -/
structure DeviceOnboardingState where
  pending : Bool
  currentOrPendingOperationalState : OperationalState
deriving DecidableEq, Repr

/-- Modelled from the spec: the Provisioning Status Document
(`schema.ProvisionStatusResponse`), §3. -/
structure ProvisionStatusResponse where
  deviceOnboardingState : DeviceOnboardingState
  supportedOperationalModes : List OperationalMode
deriving DecidableEq, Repr

/-- Modelled from the spec: Provisioning Status Document update payload
(`schema.ProvisionStatusUpdateRequest`). -/
structure ProvisionStatusUpdateRequest where
  currentOperationalMode : Option OperationalMode := none
  resourceOwner : Option String := none
deriving DecidableEq, Repr

/-- Modelled from the spec: credential types (`schema.CredentialType`), §3. -/
inductive CredentialType
  | SYMMETRIC_PAIR_WISE
  | ASYMMETRIC_SIGNING
  | ASYMMETRIC_SIGNING_WITH_CERTIFICATE
  | PIN_OR_PASSWORD
deriving DecidableEq, Repr

/-- Modelled from the spec: credential usages (`schema.CredentialUsage`), §3. -/
inductive CredentialUsage
  | TRUST_CA
  | CERT
  | ROLE_CERT
  | MFG_TRUST_CA
  | MFG_CERT
deriving DecidableEq, Repr

/-- Modelled from the spec: encodings of credential public data
(`schema.CredentialPublicDataEncoding`). -/
inductive CredentialPublicDataEncoding
  | DER
  | PEM
  | RAW
deriving DecidableEq, Repr

/-- Modelled from the spec: encodings of credential private data
(`schema.CredentialPrivateDataEncoding`). -/
inductive CredentialPrivateDataEncoding
  | RAW
deriving DecidableEq, Repr

/-- Modelled from the spec: public part of a credential record
(`schema.CredentialPublicData`).  Byte strings are kept abstract as
`String`. -/
structure CredentialPublicData where
  data : String
  encoding : CredentialPublicDataEncoding
deriving DecidableEq, Repr

/-- Modelled from the spec: private part of a credential record
(`schema.CredentialPrivateData`). -/
structure CredentialPrivateData where
  data : String
  encoding : CredentialPrivateDataEncoding
deriving DecidableEq, Repr

/-- Modelled from the spec: a credential record (`schema.Credential`), §3.
`ctype` embeds the Go field `Type` (a Lean keyword). -/
structure Credential where
  id : Int := 0
  subject : String := ""
  ctype : CredentialType
  usage : Option CredentialUsage := none
  publicData : Option CredentialPublicData := none
  privateData : Option CredentialPrivateData := none
deriving DecidableEq, Repr

/-- Modelled from the spec: credential update payload
(`schema.CredentialUpdateRequest`). -/
structure CredentialUpdateRequest where
  resourceOwner : String
  credentials : List Credential
deriving DecidableEq, Repr

/-- Modelled from the spec: response of the credential resource
(`schema.CredentialResponse`). -/
structure CredentialResponse where
  credentials : List Credential
deriving DecidableEq, Repr

/-- Modelled from the spec: certificate encodings of the CSR resource
(`schema.CertificateEncoding`). -/
inductive CertificateEncoding
  | PEM
  | DER
deriving DecidableEq, Repr

/-- Modelled from the spec: response of the CSR resource
(`schema.CertificateSigningRequestResponse`). -/
structure CertificateSigningRequestResponse where
  encoding : CertificateEncoding
  certificateSigningRequest : String
deriving DecidableEq, Repr

/-- Modelled from the spec: a resource link; `tcpSecureAddr` is `some a`
exactly when Go's `link.GetTCPSecureAddr()` succeeds with address `a`. -/
structure ResourceLink where
  tcpSecureAddr : Option String
deriving DecidableEq, Repr

/-- Modelled from the spec: the ACL update payload written at step
ACLTransferred (`acl.UpdateRequest`); only the fields `OwnDevice` sets. -/
structure AclUpdateRequest where
  resourceOwner : String
  subjectDeviceId : String
deriving DecidableEq, Repr

/-! ## ownDeviceFindClient (local/ownDevice.go, lines 91-111)

After `GetDeviceOwnership` returns, the Go code inspects three pieces of
state: the client captured by the handler (`h.Client()`), the error
returned by discovery itself, and the error recorded by the handler
(`h.Err()`).  The decision logic over those three values is embedded
as a pure function. -/

/-- The client captured by `deviceOwnershipHandler.Handle`: it carries the
CoAP connection (abstract) and the device's Ownership Document. -/
structure DeviceOwnershipClient where
  ownership : Doxm
deriving DecidableEq, Repr

/-- The three error return sites of `ownDeviceFindClient`
(ownDevice.go 102-110): the discovery call's own error, the error
recorded by the handler, and the literal `"device not found"` error. -/
inductive FindClientErr
  | discover (e : Err)
  | handler (e : Err)
  | deviceNotFound
deriving DecidableEq, Repr

/-- `ownDeviceFindClient` (ownDevice.go 91-111): returns the captured
client when one exists, else the discovery error, else the handler error,
else the "device not found" error. -/
def ownDeviceFindClient (client : Option DeviceOwnershipClient)
    (discoverErr : Option Err) (handlerErr : Option Err) :
    Except FindClientErr DeviceOwnershipClient :=
  match client with
  | some c => Except.ok c
  | none =>
    match discoverErr with
    | some e => Except.error (FindClientErr.discover e)
    | none =>
      match handlerErr with
      | some e => Except.error (FindClientErr.handler e)
      | none => Except.error FindClientErr.deviceNotFound

end OcfSdk

namespace OcfSdk

/-- C7: in `ownDeviceFindClient`, whenever the handler has captured a
matching client, that client is returned with a nil error even if an
endpoint error was also reported; the "device not found" error is returned
only when neither a client nor an error exists. -/
theorem C7_findClient_success_wins (cl : Option DeviceOwnershipClient)
    (de he : Option Err) :
    (∀ c, cl = some c → ownDeviceFindClient cl de he = Except.ok c) ∧
    (ownDeviceFindClient cl de he = Except.error FindClientErr.deviceNotFound →
      cl = none ∧ de = none ∧ he = none) := by
  constructor
  · intro c hc
    subst hc
    rfl
  · intro hnf
    cases cl with
    | some c => simp [ownDeviceFindClient] at hnf
    | none =>
      cases de with
      | some e => simp [ownDeviceFindClient] at hnf
      | none =>
        cases he with
        | some e => simp [ownDeviceFindClient] at hnf
        | none => exact ⟨rfl, rfl, rfl⟩

/-- C7 witness: a captured client wins over a reported endpoint error, and
at the all-empty input the "device not found" implication's premise is
established concretely. -/
theorem C7_findClient_success_wins_witness :
    ownDeviceFindClient (some ⟨⟨"d1", false, "", []⟩⟩) (some "endpoint error") none =
      Except.ok ⟨⟨"d1", false, "", []⟩⟩ ∧
    (none : Option DeviceOwnershipClient) = none ∧
      (none : Option Err) = none ∧ (none : Option Err) = none :=
  ⟨(C7_findClient_success_wins (some ⟨⟨"d1", false, "", []⟩⟩)
      (some "endpoint error") none).1 ⟨⟨"d1", false, "", []⟩⟩ rfl,
   (C7_findClient_success_wins none none none).2 rfl⟩

end OcfSdk

namespace OcfSdk

/-! ## DialTcpTls peer-verification callback (local/coapClient.go, 68-103)

`DialTcpTls` installs a `VerifyPeerCertificate` closure over the raw
certificate chain.  For each raw certificate it parses, verifies against
the CA pool built from `cas`, and calls the caller-supplied
`verifyPeerCertificate`.  The Go variable `err` is embedded by its value
at each program point. -/

/-- A parsed X.509 certificate, kept abstract: `raw` stands for the DER
bytes it was parsed from. -/
structure Certificate where
  raw : String
deriving DecidableEq, Repr

/-- Oracles for the three external checks the callback performs:
`x509.ParseCertificate`, `cert.Verify` against the pool built from `cas`,
and the caller-supplied `verifyPeerCertificate`. -/
structure TlsVerifyEnv where
  parseCertificate : String → Except Err Certificate
  verifyAgainstPool : Certificate → Option Err
  verifyPeerCertificate : Certificate → Option Err

/-- The `VerifyPeerCertificate` closure of `DialTcpTls`
(coapClient.go 77-96), applied to the raw certificate chain.  `none` is
Go's nil error.  In the source, after `cert.Verify` succeeds the local
variable `err` is nil, and the branch
`if verifyPeerCertificate(cert) != nil { return err }` therefore returns
nil: this embedding returns `none` at that point, exactly as the code
does. -/
def dialTcpTlsVerifyCallback (env : TlsVerifyEnv) : List String → Option Err
  | [] => none
  | rawCert :: rest =>
    match env.parseCertificate rawCert with
    | Except.error e => some e
    | Except.ok cert =>
      match env.verifyAgainstPool cert with
      | some e => some e
      | none =>
        match env.verifyPeerCertificate cert with
        | some _ => none
        | none => dialTcpTlsVerifyCallback env rest

/-- C2: whenever every certificate of the chain parses and verifies
against the CA pool, the callback returns nil (the connection is
accepted), no matter what the caller-supplied `verifyPeerCertificate`
returns — a rejection by it is discarded. -/
theorem C2_verify_callback_discards_rejection (env : TlsVerifyEnv)
    (chain : List String)
    (h : ∀ r ∈ chain, ∃ c, env.parseCertificate r = Except.ok c ∧
      env.verifyAgainstPool c = none) :
    dialTcpTlsVerifyCallback env chain = none := by
  induction chain with
  | nil => rfl
  | cons rawCert rest ih =>
    obtain ⟨c, hp, hv⟩ := h rawCert (by simp)
    have hrest : ∀ r ∈ rest, ∃ c, env.parseCertificate r = Except.ok c ∧
        env.verifyAgainstPool c = none := by
      intro r hr
      exact h r (by simp [hr])
    simp only [dialTcpTlsVerifyCallback, hp, hv]
    cases hpc : env.verifyPeerCertificate c with
    | some e => rfl
    | none => exact ih hrest

/-- A concrete environment for C2: every certificate parses, the pool
accepts everything, and the caller-supplied check rejects everything. -/
def C2env : TlsVerifyEnv :=
  { parseCertificate := fun r => Except.ok ⟨r⟩
    verifyAgainstPool := fun _ => none
    verifyPeerCertificate := fun _ => some "peer certificate rejected" }

/-- C2 witness: a one-certificate chain whose certificate parses and
pool-verifies; the caller-supplied check rejects it, yet the callback
returns nil. -/
theorem C2_verify_callback_discards_rejection_witness :
    C2env.verifyPeerCertificate ⟨"leafCert"⟩ = some "peer certificate rejected" ∧
    dialTcpTlsVerifyCallback C2env ["leafCert"] = none :=
  ⟨rfl, C2_verify_callback_discards_rejection C2env ["leafCert"]
    (by intro r _; exact ⟨⟨r⟩, rfl, rfl⟩)⟩

/-! ## DialDiscoveryAddresses (local/resource/discover.go, 14-39) -/

/-- The configured IPv4 discovery address (discover.go 15). -/
def discoveryAddressUDP4 : List String := ["224.0.1.187:5683"]

/-- The configured IPv6 discovery addresses (discover.go 16). -/
def discoveryAddressUDP6 : List String :=
  ["[ff02::158]:5683", "[ff03::158]:5683", "[ff05::158]:5683"]

/-- A multicast client connection, abstract; `none` in the output of
`DialDiscoveryAddresses` stands for the nil connection Go appends when a
dial failed. -/
structure MulticastClientConn where
  net : String
  address : String
deriving DecidableEq, Repr

/-- Outcome of one `MulticastClient.DialWithContext` call. -/
structure DialOutcome where
  conn : Option MulticastClientConn
  err : Option Err

/-- One of the two loops of `DialDiscoveryAddresses` (discover.go 22-37):
for each address, dial it; if the dial errored and the errors callback is
non-nil, report the error to the callback (second output); append the
returned connection to `out` unconditionally (first output). -/
def dialLoop (dial : String → String → DialOutcome) (errorsNonNil : Bool)
    (net : String) : List String → List (Option MulticastClientConn) × List Err
  | [] => ([], [])
  | address :: rest =>
    let r := dial net address
    let reported := match r.err with
      | some e => if errorsNonNil then [e] else []
      | none => []
    let (conns, errs) := dialLoop dial errorsNonNil net rest
    (r.conn :: conns, reported ++ errs)

/-- `DialDiscoveryAddresses` (discover.go 20-39): dials the UDP4 list with
net "udp4", then the UDP6 list with net "udp6"; returns the appended
connections and, separately, the errors reported through the callback. -/
def DialDiscoveryAddresses (dial : String → String → DialOutcome)
    (errorsNonNil : Bool) : List (Option MulticastClientConn) × List Err :=
  let r4 := dialLoop dial errorsNonNil "udp4" discoveryAddressUDP4
  let r6 := dialLoop dial errorsNonNil "udp6" discoveryAddressUDP6
  (r4.1 ++ r6.1, r4.2 ++ r6.2)

/-- The connections of `dialLoop` are exactly one per address, failed
dials included; its reported errors are exactly the dial errors. -/
theorem dialLoop_spec (dial : String → String → DialOutcome) (net : String)
    (as : List String) :
    dialLoop dial true net as =
      (as.map (fun a => (dial net a).conn),
       as.filterMap (fun a => (dial net a).err)) := by
  induction as with
  | nil => rfl
  | cons a rest ih =>
    simp only [dialLoop, ih, List.map_cons, List.filterMap_cons]
    cases h : (dial net a).err with
    | some e => simp [h]
    | none => simp [h]

/-- C10: `DialDiscoveryAddresses` returns exactly one entry per configured
discovery address — four in total (one UDP4, three UDP6) — appending each
dial's connection even when that dial failed (so entries may be nil), and
dial failures surface only through the errors callback, never aborting the
remaining dials. -/
theorem C10_dial_discovery_addresses (dial : String → String → DialOutcome) :
    (DialDiscoveryAddresses dial true).1 =
      discoveryAddressUDP4.map (fun a => (dial "udp4" a).conn) ++
        discoveryAddressUDP6.map (fun a => (dial "udp6" a).conn) ∧
    (DialDiscoveryAddresses dial true).1.length = 4 ∧
    (DialDiscoveryAddresses dial true).2 =
      discoveryAddressUDP4.filterMap (fun a => (dial "udp4" a).err) ++
        discoveryAddressUDP6.filterMap (fun a => (dial "udp6" a).err) := by
  refine ⟨?_, ?_, ?_⟩ <;>
    simp [DialDiscoveryAddresses, dialLoop_spec, discoveryAddressUDP4,
      discoveryAddressUDP6]

/-! ## Client-level OwnDevice wrapper (unnamed source, part_000)

The wrapper acquires a reference-counted device handle, short-circuits for
insecure devices, and otherwise delegates to the ownership-transfer engine
(`c.deviceOwner.OwnDevice`).  `d.Release` is deferred, so it runs on every
path after a successful acquisition.  (The option-folding that picks the
OTM type, and the dead `if err != nil` check after `d.IsSecured()`, do not
affect the result and are not modelled.) -/

/-- A cached, reference-counted device handle: `deviceID` is what
`d.DeviceID()` returns, `isSecured` what `d.IsSecured()` reports. -/
structure RefDevice where
  deviceID : String
  isSecured : Bool
deriving DecidableEq, Repr

/-- Observable actions of the client-level `OwnDevice` wrapper. -/
inductive ClientOwnEvent
  | release
  | engineOwnDevice
deriving DecidableEq, Repr

/-- The client-level `OwnDevice` (part_000, 9-31): acquire the handle
(`GetRefDevice`), return its error if any; otherwise, if the device is not
secured, return the requested `deviceID` with nil error; otherwise invoke
the ownership-transfer engine and return its result.  The deferred
`d.Release` appears as the trailing `release` event of every
post-acquisition path. -/
def ClientOwnDevice (deviceID : String) (getRefDevice : Except Err RefDevice)
    (engineResult : Except Err String) :
    Except Err String × List ClientOwnEvent :=
  match getRefDevice with
  | Except.error e => (Except.error e, [])
  | Except.ok d =>
    if !d.isSecured then
      (Except.ok deviceID, [ClientOwnEvent.release])
    else
      match engineResult with
      | Except.error e =>
        (Except.error e, [ClientOwnEvent.engineOwnDevice, ClientOwnEvent.release])
      | Except.ok s =>
        (Except.ok s, [ClientOwnEvent.engineOwnDevice, ClientOwnEvent.release])

/-- C9: for a device handle that reports it is not secured, the
client-level `OwnDevice` returns the device's identifier with nil error,
never invokes the ownership-transfer engine, and releases the acquired
cache reference on that path. -/
theorem C9_insecure_device_short_circuit (deviceID : String) (d : RefDevice)
    (engineResult : Except Err String) (h : d.isSecured = false) :
    ClientOwnDevice deviceID (Except.ok d) engineResult =
      (Except.ok deviceID, [ClientOwnEvent.release]) := by
  simp [ClientOwnDevice, h]

/-- C9 witness: a concrete insecure device; the engine result is an error
precisely to show it is never consulted. -/
theorem C9_insecure_device_short_circuit_witness :
    RefDevice.isSecured ⟨"d1", false⟩ = false ∧
    ClientOwnDevice "d1" (Except.ok ⟨"d1", false⟩) (Except.error "engine must not run") =
      (Except.ok "d1", [ClientOwnEvent.release]) :=
  ⟨rfl, C9_insecure_device_short_circuit "d1" ⟨"d1", false⟩
    (Except.error "engine must not run") rfl⟩

end OcfSdk

namespace OcfSdk

/-! ## The implementation probe: IsIotivity (local/coapClient.go, 177-208) -/

/-- CoAP media types relevant to the probe: `AppCBOR` is the generic CBOR
content format, `AppOcfCbor` the protocol-specific OCF CBOR format;
`other` stands for every remaining media type (including the zero value a
failed Go type assertion yields). -/
inductive MediaType
  | AppCBOR
  | AppOcfCbor
  | other (n : Nat)
deriving DecidableEq, Repr

/-- CoAP response codes; only `Content` is distinguished by the probe. -/
inductive COAPCode
  | Content
  | other (n : Nat)
deriving DecidableEq, Repr

/-- Outcomes of the network steps of `IsIotivity`: the GET-request
creation, the exchange, and the response's code and content-format
option (`none` models an absent option). -/
structure ProbeWorld where
  newGetRequestErr : Option Err
  exchangeErr : Option Err
  code : COAPCode
  contentFormat : Option MediaType
deriving Repr

/-- The error return sites of `IsIotivity` (coapClient.go 184-207). -/
inductive ProbeErr
  | createRequest (e : Err)
  | exchange (e : Err)
  | requestFailed
  | contentFormatNotFound
  | unknownContentFormat (mt : MediaType)
deriving DecidableEq, Repr

/-- `IsIotivity` (coapClient.go 177-208): GET on the discovery resource;
a generic-CBOR content format classifies the device as the legacy
implementation (`true`), the OCF-CBOR format as compliant (`false`), and
any other content format is an error. -/
def IsIotivity (w : ProbeWorld) : Except ProbeErr Bool :=
  match w.newGetRequestErr with
  | some e => Except.error (ProbeErr.createRequest e)
  | none =>
    match w.exchangeErr with
    | some e => Except.error (ProbeErr.exchange e)
    | none =>
      if w.code ≠ COAPCode.Content then Except.error ProbeErr.requestFailed
      else
        match w.contentFormat with
        | none => Except.error ProbeErr.contentFormatNotFound
        | some mt =>
          match mt with
          | MediaType.AppCBOR => Except.ok true
          | MediaType.AppOcfCbor => Except.ok false
          | MediaType.other n => Except.error (ProbeErr.unknownContentFormat (MediaType.other n))

/-! ## Operations attempted on the device

A single event type records, in order, every device operation the
onboarding functions attempt (ownDevice.go).  Payloads are the request
documents the source constructs. -/

/-- One attempted device operation. -/
inductive Event
  | updateDoxm (u : DoxmUpdate)
  | getDoxm
  | getDeviceLinks
  | dial (addr : String)
  | getPstat
  | updatePstat (u : ProvisionStatusUpdateRequest)
  | getCsr
  | getCred (subjectFilter : String)
  | deleteCredById (id : Int)
  | deleteCredBySubject (subject : String)
  | updateCred (u : CredentialUpdateRequest)
  | provisionOwnerCredentials
  | isIotivityProbe
  | closeTls
  | updateAcl (u : AclUpdateRequest)
  | provisionDevice
deriving DecidableEq, Repr

/-! ## iotivityHack (local/ownDevice.go, 251-292) -/

/-- The temporary owner identity of the compatibility patch
(ownDevice.go 256). -/
def hackId : String := "52a201a7-824c-4fc6-9092-d2b6a3414a5b"

/-- The throwaway symmetric pair-wise credential the patch writes
(ownDevice.go 268-280): subject is the temporary identity, resource owner
the SDK identity. -/
def iotivityHackCredential (sdkID : String) : CredentialUpdateRequest :=
  { resourceOwner := sdkID
    credentials := [
      { subject := hackId
        ctype := CredentialType.SYMMETRIC_PAIR_WISE
        privateData := some { data := "IOTIVITY HACK"
                              encoding := CredentialPrivateDataEncoding.RAW } } ] }

/-- Outcomes of the three writes `iotivityHack` performs. -/
structure HackWorld where
  setOwnerErr : Option Err
  setCredErr : Option Err
  deleteCredErr : Option Err
deriving Repr

/-- The error return sites of `iotivityHack` (ownDevice.go 263-289). -/
inductive HackErr
  | setHackOwner (e : Err)
  | setHackCredential (e : Err)
  | deleteHackCredential (e : Err)
deriving DecidableEq, Repr

/-- `iotivityHack` (ownDevice.go 255-292): write the temporary owner
identity to the Ownership Document, write the throwaway symmetric
pair-wise credential, then delete that credential (by its subject). -/
def iotivityHack (w : HackWorld) (sdkID : String) :
    Except HackErr Unit × List Event :=
  let setDeviceOwner : DoxmUpdate := { deviceOwner := some hackId }
  let ev1 := [Event.updateDoxm setDeviceOwner]
  match w.setOwnerErr with
  | some e => (Except.error (HackErr.setHackOwner e), ev1)
  | none =>
    let ev2 := ev1 ++ [Event.updateCred (iotivityHackCredential sdkID)]
    match w.setCredErr with
    | some e => (Except.error (HackErr.setHackCredential e), ev2)
    | none =>
      let ev3 := ev2 ++ [Event.deleteCredBySubject hackId]
      match w.deleteCredErr with
      | some e => (Except.error (HackErr.deleteHackCredential e), ev3)
      | none => (Except.ok (), ev3)

/-! ## ProvisionOwnerCredentials (local/ownDevice.go, 148-235) -/

/-- `encodeToDer` (ownDevice.go 148-158): PEM data is decoded (failing on
invalid framing); any other encoding passes the data through unchanged.
`pemDecode` embeds `pem.Decode`, returning the block bytes when one is
found. -/
def encodeToDer (pemDecode : String → Option String)
    (encoding : CertificateEncoding) (data : String) : Except Err String :=
  match encoding with
  | CertificateEncoding.PEM =>
    match pemDecode data with
    | none => Except.error "invalid pem encoding"
    | some derBytes => Except.ok derBytes
  | CertificateEncoding.DER => Except.ok data

/-- The error return sites of `ProvisionOwnerCredentials`
(ownDevice.go 163-232). -/
inductive ProvErr
  | getCsr (e : Err)
  | encodeCsr (e : Err)
  | signCsr (e : Err)
  | getCred (e : Err)
  | deleteCred (id : Int) (e : Err)
  | setIdentityCred (e : Err)
  | setCaCred (e : Err)
deriving DecidableEq, Repr

/-- The deletion condition of the credential-cleanup loop
(ownDevice.go 184-193): asymmetric-signing-with-certificate credentials
whose usage is CERT or TRUST_CA. -/
def shouldDeleteCred (cred : Credential) : Bool :=
  if cred.usage = some CredentialUsage.CERT ∧
      cred.ctype = CredentialType.ASYMMETRIC_SIGNING_WITH_CERTIFICATE then
    true
  else if cred.usage = some CredentialUsage.TRUST_CA ∧
      cred.ctype = CredentialType.ASYMMETRIC_SIGNING_WITH_CERTIFICATE then
    true
  else
    false

/-- The credential-cleanup loop (ownDevice.go 184-193): delete, by id,
each credential satisfying `shouldDeleteCred`; the first failing delete
aborts. -/
def deleteOldCredentials (deleteCredErr : Int → Option Err) :
    List Credential → Except ProvErr Unit × List Event
  | [] => (Except.ok (), [])
  | cred :: rest =>
    if shouldDeleteCred cred then
      match deleteCredErr cred.id with
      | some e => (Except.error (ProvErr.deleteCred cred.id e),
                   [Event.deleteCredById cred.id])
      | none =>
        let r := deleteOldCredentials deleteCredErr rest
        (r.1, Event.deleteCredById cred.id :: r.2)
    else
      deleteOldCredentials deleteCredErr rest

/-- The new device-identity credential (ownDevice.go 195-208): subject the
device identity, usage CERT, public data the signed certificate tagged
DER. -/
def identityCredentialRequest (ownerID deviceID signedCsr : String) :
    CredentialUpdateRequest :=
  { resourceOwner := ownerID
    credentials := [
      { subject := deviceID
        ctype := CredentialType.ASYMMETRIC_SIGNING_WITH_CERTIFICATE
        usage := some CredentialUsage.CERT
        publicData := some { data := signedCsr
                             encoding := CredentialPublicDataEncoding.DER } } ] }

/-- One trust-anchor credential per owner-held CA (ownDevice.go 214-228):
subject the owner identity, usage TRUST_CA, public data the CA's raw DER. -/
def caCredentialRequest (ownerID caRaw : String) : CredentialUpdateRequest :=
  { resourceOwner := ownerID
    credentials := [
      { subject := ownerID
        ctype := CredentialType.ASYMMETRIC_SIGNING_WITH_CERTIFICATE
        usage := some CredentialUsage.TRUST_CA
        publicData := some { data := caRaw
                             encoding := CredentialPublicDataEncoding.DER } } ] }

/-- The trust-anchor write loop (ownDevice.go 214-233): one credential
update per CA; the first failing update aborts. -/
def setCaCredentials (updateCredErr : CredentialUpdateRequest → Option Err)
    (ownerID : String) : List String → Except ProvErr Unit × List Event
  | [] => (Except.ok (), [])
  | ca :: rest =>
    let req := caCredentialRequest ownerID ca
    match updateCredErr req with
    | some e => (Except.error (ProvErr.setCaCred e), [Event.updateCred req])
    | none =>
      let r := setCaCredentials updateCredErr ownerID rest
      (r.1, Event.updateCred req :: r.2)

/-- Outcomes of the external calls `ProvisionOwnerCredentials` makes. -/
structure ProvisionWorld where
  pemDecode : String → Option String
  csrResult : Except Err CertificateSigningRequestResponse
  sign : String → Except Err String
  credResult : Except Err CredentialResponse
  deleteCredErr : Int → Option Err
  updateCredErr : CredentialUpdateRequest → Option Err

/-- `ManufacturerOTMClient.ProvisionOwnerCredentials`
(ownDevice.go 160-235): read the CSR, normalise it to DER, have the signer
sign it; read the device's credentials (filtered by the device subject);
delete stale identity material; write the new identity credential; then
write one trust-anchor credential per owner-held CA. -/
def ProvisionOwnerCredentials (w : ProvisionWorld) (CAs : List String)
    (ownerID deviceID : String) : Except ProvErr Unit × List Event :=
  let ev1 := [Event.getCsr]
  match w.csrResult with
  | Except.error e => (Except.error (ProvErr.getCsr e), ev1)
  | Except.ok csr =>
    match encodeToDer w.pemDecode csr.encoding csr.certificateSigningRequest with
    | Except.error e => (Except.error (ProvErr.encodeCsr e), ev1)
    | Except.ok der =>
      match w.sign der with
      | Except.error e => (Except.error (ProvErr.signCsr e), ev1)
      | Except.ok signedCsr =>
        let ev2 := ev1 ++ [Event.getCred deviceID]
        match w.credResult with
        | Except.error e => (Except.error (ProvErr.getCred e), ev2)
        | Except.ok deviceCredential =>
          let del := deleteOldCredentials w.deleteCredErr deviceCredential.credentials
          let ev3 := ev2 ++ del.2
          match del.1 with
          | Except.error e => (Except.error e, ev3)
          | Except.ok _ =>
            let idReq := identityCredentialRequest ownerID deviceID signedCsr
            let ev4 := ev3 ++ [Event.updateCred idReq]
            match w.updateCredErr idReq with
            | some e => (Except.error (ProvErr.setIdentityCred e), ev4)
            | none =>
              let cas := setCaCredentials w.updateCredErr ownerID CAs
              let ev5 := ev4 ++ cas.2
              match cas.1 with
              | Except.error e => (Except.error e, ev5)
              | Except.ok _ => (Except.ok (), ev5)

end OcfSdk

namespace OcfSdk

/-! ## OwnDevice (local/ownDevice.go, 294-500) -/

/-- The `supportOtm` loop of `OwnDevice` (ownDevice.go 309-315): is the
selected OTM kind among the device's supported methods? -/
def supportsOtm : List OwnerTransferMethod → OwnerTransferMethod → Bool
  | [], _ => false
  | s :: rest, t => if s = t then true else supportsOtm rest t

/-- `SupportedOperationalModes.Has` as used at ownDevice.go 380. -/
def hasOperationalMode : List OperationalMode → OperationalMode → Bool
  | [], _ => false
  | m :: rest, t => if m = t then true else hasOperationalMode rest t

/-- The TLS-address search loop (ownDevice.go 349-356): the first link
whose `GetTCPSecureAddr` succeeds. -/
def findTcpSecureAddr : List ResourceLink → Option String
  | [] => none
  | l :: rest =>
    match l.tcpSecureAddr with
    | some a => some a
    | none => findTcpSecureAddr rest

/-- The error return sites of `OwnDevice` (ownDevice.go 303-497), one
constructor per `return fmt.Errorf` site.  `ownerMismatch` is the site at
line 431-433 (whose Go message formats the enclosing — nil — `err`). -/
inductive OwnErr
  | findClient (e : FindClientErr)
  | unsupportedOtm (requested : OwnerTransferMethod)
      (supported : List OwnerTransferMethod)
  | getSdkDeviceID (e : Err)
  | deviceAlreadyOwnedBy (owner : String)
  | selectOtm (e : Err)
  | getDevice (e : Err)
  | deviceLinksEmpty
  | tcpSecureAddrNotFound
  | dial (e : Err)
  | getProvisionState (e : Err)
  | devicePending (st : OperationalState)
  | wrongOperationalState (st : OperationalState)
  | unsupportedOperationalMode (modes : List OperationalMode)
  | updateProvisionState (e : Err)
  | provisionOwner (e : Err)
  | probeFailed (e : ProbeErr)
  | iotivityHackFailed (e : HackErr)
  | setDeviceOwner (e : Err)
  | verifyOwner (e : Err)
  | ownerMismatch
  | setDeviceOwned (e : Err)
  | updateProvisionStateOwner (e : Err)
  | updateAclOwner (e : Err)
  | provisionDevice (e : Err)
  | provisionClose (e : Err)
deriving DecidableEq, Repr

/-- Outcomes of every network round-trip `OwnDevice` performs, in program
order.  `findClient` is the composite result of `ownDeviceFindClient`;
`probe` and `hack` are the sub-worlds of the implementation probe and the
compatibility patch. -/
structure OwnWorld where
  findClient : Except FindClientErr DeviceOwnershipClient
  sdkDeviceID : Except Err String
  selectOtmErr : Option Err
  getDeviceLinks : Except Err (List ResourceLink)
  dialErr : Option Err
  provisionState : Except Err ProvisionStatusResponse
  updateProvisionStateErr : Option Err
  provisionOwnerErr : Option Err
  probe : ProbeWorld
  hack : HackWorld
  setDeviceOwnerErr : Option Err
  verifyOwner : Except Err Doxm
  setDeviceOwnedErr : Option Err
  updateProvisionStateOwnerErr : Option Err
  updateAclErr : Option Err
  provisionDeviceErr : Option Err
  provisionCloseErr : Option Err

/-- The tail of `OwnDevice` from the owner write on (ownDevice.go
415-499): write `deviceOwner = sdkID`; read the Ownership Document back
and fail on a mismatch; write `owned = true` with `resourceOwner` and
`deviceId`; close the TLS session; write the pstat resource owner; write
the owner ACL entry; provision the device back to normal operation. -/
def ownDeviceFinish (w : OwnWorld) (deviceID sdkID : String)
    (ev : List Event) : Except OwnErr Unit × List Event :=
  let setDeviceOwner : DoxmUpdate := { deviceOwner := some sdkID }
  let ev9 := ev ++ [Event.updateDoxm setDeviceOwner]
  match w.setDeviceOwnerErr with
  | some e => (Except.error (OwnErr.setDeviceOwner e), ev9)
  | none =>
    let ev10 := ev9 ++ [Event.getDoxm]
    match w.verifyOwner with
    | Except.error e => (Except.error (OwnErr.verifyOwner e), ev10)
    | Except.ok verifyOwner =>
      if verifyOwner.deviceOwner ≠ sdkID then
        (Except.error OwnErr.ownerMismatch, ev10)
      else
        let setDeviceOwned : DoxmUpdate :=
          { resourceOwner := some sdkID, deviceId := some deviceID, owned := true }
        let ev11 := ev10 ++ [Event.updateDoxm setDeviceOwned]
        match w.setDeviceOwnedErr with
        | some e => (Except.error (OwnErr.setDeviceOwned e), ev11)
        | none =>
          let ev12 := ev11 ++ [Event.closeTls]
          let setOwnerProvisionState : ProvisionStatusUpdateRequest :=
            { resourceOwner := some sdkID }
          let ev13 := ev12 ++ [Event.updatePstat setOwnerProvisionState]
          match w.updateProvisionStateOwnerErr with
          | some e => (Except.error (OwnErr.updateProvisionStateOwner e), ev13)
          | none =>
            let setOwnerAcl : AclUpdateRequest :=
              { resourceOwner := sdkID, subjectDeviceId := sdkID }
            let ev14 := ev13 ++ [Event.updateAcl setOwnerAcl]
            match w.updateAclErr with
            | some e => (Except.error (OwnErr.updateAclOwner e), ev14)
            | none =>
              let ev15 := ev14 ++ [Event.provisionDevice]
              match w.provisionDeviceErr with
              | some e => (Except.error (OwnErr.provisionDevice e), ev15)
              | none =>
                match w.provisionCloseErr with
                | some e => (Except.error (OwnErr.provisionClose e), ev15)
                | none => (Except.ok (), ev15)

/-- `OwnDevice` (ownDevice.go 294-500): find the device's ownership
client; check the selected OTM is supported; select it on the device
(short-circuiting when an already-owned device rejects the write); resolve
a TCP-secure address from the device links and dial it via the OTM
client; validate the Provisioning Status Document (pending flag,
operational state RFOTM, client-directed mode support); set the
client-directed mode; provision owner credentials; probe for the legacy
implementation and apply `iotivityHack` when it matches; then finish with
`ownDeviceFinish`. -/
def OwnDevice (w : OwnWorld) (deviceID : String)
    (otmType : OwnerTransferMethod) : Except OwnErr Unit × List Event :=
  match w.findClient with
  | Except.error e => (Except.error (OwnErr.findClient e), [])
  | Except.ok client =>
    let ownership := client.ownership
    if !supportsOtm ownership.supportedOwnerTransferMethods otmType then
      (Except.error
        (OwnErr.unsupportedOtm otmType ownership.supportedOwnerTransferMethods), [])
    else
      let selectOTM : DoxmUpdate := { selectOwnerTransferMethod := some otmType }
      match w.sdkDeviceID with
      | Except.error e => (Except.error (OwnErr.getSdkDeviceID e), [])
      | Except.ok sdkID =>
        let ev1 := [Event.updateDoxm selectOTM]
        match w.selectOtmErr with
        | some e =>
          if ownership.owned then
            if ownership.deviceOwner = sdkID then (Except.ok (), ev1)
            else
              (Except.error (OwnErr.deviceAlreadyOwnedBy ownership.deviceOwner), ev1)
          else (Except.error (OwnErr.selectOtm e), ev1)
        | none =>
          let ev2 := ev1 ++ [Event.getDeviceLinks]
          match w.getDeviceLinks with
          | Except.error e => (Except.error (OwnErr.getDevice e), ev2)
          | Except.ok links =>
            if links.isEmpty then (Except.error OwnErr.deviceLinksEmpty, ev2)
            else
              match findTcpSecureAddr links with
              | none => (Except.error OwnErr.tcpSecureAddrNotFound, ev2)
              | some tlsAddr =>
                let ev3 := ev2 ++ [Event.dial tlsAddr]
                match w.dialErr with
                | some e => (Except.error (OwnErr.dial e), ev3)
                | none =>
                  let ev4 := ev3 ++ [Event.getPstat]
                  match w.provisionState with
                  | Except.error e =>
                    (Except.error (OwnErr.getProvisionState e), ev4)
                  | Except.ok provisionState =>
                    if provisionState.deviceOnboardingState.pending then
                      (Except.error (OwnErr.devicePending
                        provisionState.deviceOnboardingState.currentOrPendingOperationalState), ev4)
                    else if provisionState.deviceOnboardingState.currentOrPendingOperationalState
                        ≠ OperationalState.RFOTM then
                      (Except.error (OwnErr.wrongOperationalState
                        provisionState.deviceOnboardingState.currentOrPendingOperationalState), ev4)
                    else if !hasOperationalMode provisionState.supportedOperationalModes
                        OperationalMode.ClientDirected then
                      (Except.error (OwnErr.unsupportedOperationalMode
                        provisionState.supportedOperationalModes), ev4)
                    else
                      let updateProvisionState : ProvisionStatusUpdateRequest :=
                        { currentOperationalMode := some OperationalMode.ClientDirected }
                      let ev5 := ev4 ++ [Event.updatePstat updateProvisionState]
                      match w.updateProvisionStateErr with
                      | some e => (Except.error (OwnErr.updateProvisionState e), ev5)
                      | none =>
                        let ev6 := ev5 ++ [Event.provisionOwnerCredentials]
                        match w.provisionOwnerErr with
                        | some e => (Except.error (OwnErr.provisionOwner e), ev6)
                        | none =>
                          let ev7 := ev6 ++ [Event.isIotivityProbe]
                          match IsIotivity w.probe with
                          | Except.error e =>
                            (Except.error (OwnErr.probeFailed e), ev7)
                          | Except.ok true =>
                            let h := iotivityHack w.hack sdkID
                            let ev8 := ev7 ++ h.2
                            match h.1 with
                            | Except.error e =>
                              (Except.error (OwnErr.iotivityHackFailed e), ev8)
                            | Except.ok _ => ownDeviceFinish w deviceID sdkID ev8
                          | Except.ok false => ownDeviceFinish w deviceID sdkID ev7

/-! ### Concrete worlds for witnesses and counterexamples -/

/-- An unowned device supporting the manufacturer-certificate OTM. -/
def goodDoxm : Doxm :=
  { deviceId := "device-1"
    owned := false
    deviceOwner := ""
    supportedOwnerTransferMethods := [OwnerTransferMethod.ManufacturerCertificate] }

/-- A pstat document in the factory-fresh state: not pending, RFOTM,
client-directed mode supported. -/
def goodPstat : ProvisionStatusResponse :=
  { deviceOnboardingState :=
      { pending := false
        currentOrPendingOperationalState := OperationalState.RFOTM }
    supportedOperationalModes := [OperationalMode.ClientDirected] }

/-- A world in which every round-trip succeeds, the device is compliant
(OCF-CBOR probe answer), and the owner read-back matches the SDK identity
"owner-1". -/
def successWorld : OwnWorld :=
  { findClient := Except.ok ⟨goodDoxm⟩
    sdkDeviceID := Except.ok "owner-1"
    selectOtmErr := none
    getDeviceLinks := Except.ok [⟨some "coaps+tcp://192.168.1.10:5684"⟩]
    dialErr := none
    provisionState := Except.ok goodPstat
    updateProvisionStateErr := none
    provisionOwnerErr := none
    probe := { newGetRequestErr := none
               exchangeErr := none
               code := COAPCode.Content
               contentFormat := some MediaType.AppOcfCbor }
    hack := { setOwnerErr := none, setCredErr := none, deleteCredErr := none }
    setDeviceOwnerErr := none
    verifyOwner := Except.ok
      { deviceId := "device-1"
        owned := false
        deviceOwner := "owner-1"
        supportedOwnerTransferMethods := [] }
    setDeviceOwnedErr := none
    updateProvisionStateOwnerErr := none
    updateAclErr := none
    provisionDeviceErr := none
    provisionCloseErr := none }

end OcfSdk

namespace OcfSdk

/-- C6: when the selected OTM kind is absent from the device's supported
set, `OwnDevice` fails with the unsupported-method error carrying both the
requested method and the device's supported set, and no operation — in
particular no write to the Ownership Document — is attempted. -/
theorem C6_unsupported_otm_no_doxm_write (w : OwnWorld) (deviceID : String)
    (otmType : OwnerTransferMethod) (client : DeviceOwnershipClient)
    (hfind : w.findClient = Except.ok client)
    (hsup : supportsOtm client.ownership.supportedOwnerTransferMethods otmType = false) :
    OwnDevice w deviceID otmType =
      (Except.error (OwnErr.unsupportedOtm otmType
        client.ownership.supportedOwnerTransferMethods), []) ∧
    ∀ u, Event.updateDoxm u ∉ (OwnDevice w deviceID otmType).2 := by
  have h1 : OwnDevice w deviceID otmType =
      (Except.error (OwnErr.unsupportedOtm otmType
        client.ownership.supportedOwnerTransferMethods), []) := by
    simp [OwnDevice, hfind, hsup]
  refine ⟨h1, ?_⟩
  intro u
  rw [h1]
  simp

/-- C6 witness: a device supporting only the just-works method rejects the
manufacturer-certificate OTM; both sets appear in the error and the trace
is empty. -/
theorem C6_unsupported_otm_no_doxm_write_witness :
    supportsOtm [OwnerTransferMethod.JustWorks]
      OwnerTransferMethod.ManufacturerCertificate = false ∧
    OwnDevice
      { successWorld with findClient := Except.ok ⟨{ goodDoxm with
          supportedOwnerTransferMethods := [OwnerTransferMethod.JustWorks] }⟩ }
      "device-1" OwnerTransferMethod.ManufacturerCertificate =
      (Except.error (OwnErr.unsupportedOtm
        OwnerTransferMethod.ManufacturerCertificate
        [OwnerTransferMethod.JustWorks]), []) :=
  ⟨rfl,
   (C6_unsupported_otm_no_doxm_write
      { successWorld with findClient := Except.ok ⟨{ goodDoxm with
          supportedOwnerTransferMethods := [OwnerTransferMethod.JustWorks] }⟩ }
      "device-1" OwnerTransferMethod.ManufacturerCertificate
      ⟨{ goodDoxm with
          supportedOwnerTransferMethods := [OwnerTransferMethod.JustWorks] }⟩
      rfl rfl).1⟩

/-- A list with a TCP-secure address is non-empty. -/
theorem findTcpSecureAddr_ne_nil (links : List ResourceLink) (a : String)
    (h : findTcpSecureAddr links = some a) : links.isEmpty = false := by
  cases links with
  | nil => simp [findTcpSecureAddr] at h
  | cons l rest => rfl

/-- C1 (amended): a device whose pstat reports `pending == true` or an
operational state other than RFOTM makes `OwnDevice` fail at the
state-validation step — after the secure session has been dialed (the
pstat document is read over that session) — and before any credential
operation: owner-credential provisioning is never invoked and no
credential write or delete is attempted. -/
theorem C1_precondition_gating_after_dial (w : OwnWorld) (deviceID : String)
    (otmType : OwnerTransferMethod) (client : DeviceOwnershipClient)
    (sdkID : String) (links : List ResourceLink) (tlsAddr : String)
    (ps : ProvisionStatusResponse)
    (hfind : w.findClient = Except.ok client)
    (hsup : supportsOtm client.ownership.supportedOwnerTransferMethods otmType = true)
    (hsdk : w.sdkDeviceID = Except.ok sdkID)
    (hsel : w.selectOtmErr = none)
    (hlinks : w.getDeviceLinks = Except.ok links)
    (haddr : findTcpSecureAddr links = some tlsAddr)
    (hdial : w.dialErr = none)
    (hps : w.provisionState = Except.ok ps)
    (hbad : ps.deviceOnboardingState.pending = true ∨
      ps.deviceOnboardingState.currentOrPendingOperationalState ≠ OperationalState.RFOTM) :
    (OwnDevice w deviceID otmType).1 =
      (if ps.deviceOnboardingState.pending then
        Except.error (OwnErr.devicePending
          ps.deviceOnboardingState.currentOrPendingOperationalState)
      else
        Except.error (OwnErr.wrongOperationalState
          ps.deviceOnboardingState.currentOrPendingOperationalState)) ∧
    (OwnDevice w deviceID otmType).2 =
      [Event.updateDoxm { selectOwnerTransferMethod := some otmType },
       Event.getDeviceLinks, Event.dial tlsAddr, Event.getPstat] ∧
    Event.provisionOwnerCredentials ∉ (OwnDevice w deviceID otmType).2 ∧
    (∀ u, Event.updateCred u ∉ (OwnDevice w deviceID otmType).2) ∧
    (∀ i, Event.deleteCredById i ∉ (OwnDevice w deviceID otmType).2) ∧
    (∀ s, Event.deleteCredBySubject s ∉ (OwnDevice w deviceID otmType).2) := by
  have hne := findTcpSecureAddr_ne_nil links tlsAddr haddr
  have heq : OwnDevice w deviceID otmType =
      ((if ps.deviceOnboardingState.pending then
          Except.error (OwnErr.devicePending
            ps.deviceOnboardingState.currentOrPendingOperationalState)
        else
          Except.error (OwnErr.wrongOperationalState
            ps.deviceOnboardingState.currentOrPendingOperationalState)),
       [Event.updateDoxm { selectOwnerTransferMethod := some otmType },
        Event.getDeviceLinks, Event.dial tlsAddr, Event.getPstat]) := by
    cases hp : ps.deviceOnboardingState.pending with
    | true =>
      simp [OwnDevice, hfind, hsup, hsdk, hsel, hlinks, hne, haddr, hdial, hps, hp]
    | false =>
      rcases hbad with hb | hb
      · rw [hp] at hb; exact absurd hb (by simp)
      · simp [OwnDevice, hfind, hsup, hsdk, hsel, hlinks, hne, haddr, hdial, hps,
          hp, hb]
  refine ⟨by rw [heq], by rw [heq], ?_, ?_, ?_, ?_⟩
  · rw [heq]; simp
  · intro u; rw [heq]; simp
  · intro i; rw [heq]; simp
  · intro s; rw [heq]; simp

/-- A pstat document reporting a pending onboarding operation. -/
def pendingPstat : ProvisionStatusResponse :=
  { deviceOnboardingState :=
      { pending := true
        currentOrPendingOperationalState := OperationalState.RFOTM }
    supportedOperationalModes := [OperationalMode.ClientDirected] }

/-- A world identical to `successWorld` except the device reports
`pending == true`. -/
def C1world : OwnWorld := { successWorld with provisionState := Except.ok pendingPstat }

/-- C1 counterexample: for a device reporting `pending == true`,
`OwnDevice` does fail — but the trace of the failing run contains the
`dial` of the secure session, because the Provisioning Status Document is
read over that session.  The claim's "fails before any secure session is
dialed" is therefore false on the code. -/
theorem C1_counterexample_dial_precedes_pending_failure :
    C1world.provisionState = Except.ok pendingPstat ∧
    pendingPstat.deviceOnboardingState.pending = true ∧
    (OwnDevice C1world "device-1" OwnerTransferMethod.ManufacturerCertificate).1 =
      Except.error (OwnErr.devicePending OperationalState.RFOTM) ∧
    Event.dial "coaps+tcp://192.168.1.10:5684" ∈
      (OwnDevice C1world "device-1" OwnerTransferMethod.ManufacturerCertificate).2 := by
  refine ⟨rfl, rfl, rfl, ?_⟩
  simp [OwnDevice, C1world, successWorld, goodDoxm, pendingPstat, supportsOtm,
    findTcpSecureAddr]

/-- C1 witness: the amended theorem applied to the concrete pending-device
world. -/
theorem C1_precondition_gating_after_dial_witness :
    (OwnDevice C1world "device-1" OwnerTransferMethod.ManufacturerCertificate).1 =
      (if pendingPstat.deviceOnboardingState.pending then
        Except.error (OwnErr.devicePending
          pendingPstat.deviceOnboardingState.currentOrPendingOperationalState)
      else
        Except.error (OwnErr.wrongOperationalState
          pendingPstat.deviceOnboardingState.currentOrPendingOperationalState)) ∧
    Event.provisionOwnerCredentials ∉
      (OwnDevice C1world "device-1" OwnerTransferMethod.ManufacturerCertificate).2 :=
  ⟨(C1_precondition_gating_after_dial C1world "device-1"
      OwnerTransferMethod.ManufacturerCertificate ⟨goodDoxm⟩ "owner-1"
      [⟨some "coaps+tcp://192.168.1.10:5684"⟩] "coaps+tcp://192.168.1.10:5684"
      pendingPstat rfl rfl rfl rfl rfl rfl rfl rfl (Or.inl rfl)).1,
   (C1_precondition_gating_after_dial C1world "device-1"
      OwnerTransferMethod.ManufacturerCertificate ⟨goodDoxm⟩ "owner-1"
      [⟨some "coaps+tcp://192.168.1.10:5684"⟩] "coaps+tcp://192.168.1.10:5684"
      pendingPstat rfl rfl rfl rfl rfl rfl rfl rfl (Or.inl rfl)).2.2.1⟩

/-- An Ownership Document already owned by the SDK identity "owner-1". -/
def ownedBySelfDoxm : Doxm :=
  { deviceId := "device-1"
    owned := true
    deviceOwner := "owner-1"
    supportedOwnerTransferMethods := [OwnerTransferMethod.ManufacturerCertificate] }

/-- A world for a device already owned by the caller's identity whose
select-OTM write nevertheless succeeds; every later round-trip succeeds
too. -/
def C4world : OwnWorld := { successWorld with findClient := Except.ok ⟨ownedBySelfDoxm⟩ }

/-- C4 counterexample: a device already owned by the caller's own identity
("owner-1" is both `deviceOwner` and the SDK identity) for which the
select-OTM write succeeds.  `OwnDevice` returns nil — but only after
re-running owner-credential provisioning, refuting "succeeds without
re-running credential provisioning".  The code short-circuits only when
the select-OTM write FAILS on an owned device (ownDevice.go 330-339). -/
theorem C4_counterexample_owned_device_reprovisions :
    ownedBySelfDoxm.owned = true ∧
    ownedBySelfDoxm.deviceOwner = "owner-1" ∧
    C4world.sdkDeviceID = Except.ok "owner-1" ∧
    (OwnDevice C4world "device-1" OwnerTransferMethod.ManufacturerCertificate).1 =
      Except.ok () ∧
    Event.provisionOwnerCredentials ∈
      (OwnDevice C4world "device-1" OwnerTransferMethod.ManufacturerCertificate).2 := by
  refine ⟨rfl, rfl, rfl, rfl, ?_⟩
  simp [OwnDevice, ownDeviceFinish, C4world, successWorld, ownedBySelfDoxm,
    goodPstat, IsIotivity, supportsOtm, hasOperationalMode, findTcpSecureAddr]

/-- C4 (amended): when an already-owned device rejects the select-OTM
write, `OwnDevice` short-circuits: if the recorded owner is the caller's
identity it returns nil without dialing or re-running credential
provisioning (the trace holds only the rejected select-OTM write); if the
owner differs, it fails with the error carrying the conflicting owner. -/
theorem C4_owned_short_circuit_on_rejected_select (w : OwnWorld)
    (deviceID : String) (otmType : OwnerTransferMethod)
    (client : DeviceOwnershipClient) (sdkID : String) (e : Err)
    (hfind : w.findClient = Except.ok client)
    (hsup : supportsOtm client.ownership.supportedOwnerTransferMethods otmType = true)
    (hsdk : w.sdkDeviceID = Except.ok sdkID)
    (hsel : w.selectOtmErr = some e)
    (howned : client.ownership.owned = true) :
    (client.ownership.deviceOwner = sdkID →
      OwnDevice w deviceID otmType =
        (Except.ok (), [Event.updateDoxm { selectOwnerTransferMethod := some otmType }])) ∧
    (client.ownership.deviceOwner ≠ sdkID →
      OwnDevice w deviceID otmType =
        (Except.error (OwnErr.deviceAlreadyOwnedBy client.ownership.deviceOwner),
         [Event.updateDoxm { selectOwnerTransferMethod := some otmType }])) := by
  constructor
  · intro hown
    simp [OwnDevice, hfind, hsup, hsdk, hsel, howned, hown]
  · intro hown
    simp [OwnDevice, hfind, hsup, hsdk, hsel, howned, hown]

/-- An Ownership Document owned by a different identity. -/
def ownedByOtherDoxm : Doxm :=
  { deviceId := "device-1"
    owned := true
    deviceOwner := "intruder-9"
    supportedOwnerTransferMethods := [OwnerTransferMethod.ManufacturerCertificate] }

/-- C4 witness: with the select-OTM write rejected, an owned-by-self
device yields nil with no further operations, and an owned-by-other
device yields the error naming the conflicting owner. -/
theorem C4_owned_short_circuit_on_rejected_select_witness :
    OwnDevice { successWorld with
        findClient := Except.ok ⟨ownedBySelfDoxm⟩
        selectOtmErr := some "method not allowed" }
      "device-1" OwnerTransferMethod.ManufacturerCertificate =
      (Except.ok (),
       [Event.updateDoxm
         { selectOwnerTransferMethod := some OwnerTransferMethod.ManufacturerCertificate }]) ∧
    OwnDevice { successWorld with
        findClient := Except.ok ⟨ownedByOtherDoxm⟩
        selectOtmErr := some "method not allowed" }
      "device-1" OwnerTransferMethod.ManufacturerCertificate =
      (Except.error (OwnErr.deviceAlreadyOwnedBy "intruder-9"),
       [Event.updateDoxm
         { selectOwnerTransferMethod := some OwnerTransferMethod.ManufacturerCertificate }]) :=
  ⟨(C4_owned_short_circuit_on_rejected_select
      { successWorld with
          findClient := Except.ok ⟨ownedBySelfDoxm⟩
          selectOtmErr := some "method not allowed" }
      "device-1" OwnerTransferMethod.ManufacturerCertificate
      ⟨ownedBySelfDoxm⟩ "owner-1" "method not allowed"
      rfl rfl rfl rfl rfl).1 rfl,
   (C4_owned_short_circuit_on_rejected_select
      { successWorld with
          findClient := Except.ok ⟨ownedByOtherDoxm⟩
          selectOtmErr := some "method not allowed" }
      "device-1" OwnerTransferMethod.ManufacturerCertificate
      ⟨ownedByOtherDoxm⟩ "owner-1" "method not allowed"
      rfl rfl rfl rfl rfl).2 (by decide)⟩

/-- C3: when the `deviceOwner` write succeeds but the read-back Ownership
Document carries a different owner, `OwnDevice` returns the owner-mismatch
error of ownDevice.go 431-433 and never writes `owned = true`: every
Ownership Document update in the trace has `owned = false`, so the
MarkedOwned write is absent. -/
theorem C3_owner_mismatch_blocks_marked_owned (w : OwnWorld)
    (deviceID : String) (otmType : OwnerTransferMethod)
    (client : DeviceOwnershipClient) (sdkID : String)
    (links : List ResourceLink) (tlsAddr : String)
    (ps : ProvisionStatusResponse) (legacy : Bool) (vo : Doxm)
    (hfind : w.findClient = Except.ok client)
    (hsup : supportsOtm client.ownership.supportedOwnerTransferMethods otmType = true)
    (hsdk : w.sdkDeviceID = Except.ok sdkID)
    (hsel : w.selectOtmErr = none)
    (hlinks : w.getDeviceLinks = Except.ok links)
    (haddr : findTcpSecureAddr links = some tlsAddr)
    (hdial : w.dialErr = none)
    (hps : w.provisionState = Except.ok ps)
    (hpend : ps.deviceOnboardingState.pending = false)
    (hst : ps.deviceOnboardingState.currentOrPendingOperationalState =
      OperationalState.RFOTM)
    (hmode : hasOperationalMode ps.supportedOperationalModes
      OperationalMode.ClientDirected = true)
    (hupd : w.updateProvisionStateErr = none)
    (hprov : w.provisionOwnerErr = none)
    (hprobe : IsIotivity w.probe = Except.ok legacy)
    (hhack : w.hack = ⟨none, none, none⟩)
    (hset : w.setDeviceOwnerErr = none)
    (hvo : w.verifyOwner = Except.ok vo)
    (hmm : vo.deviceOwner ≠ sdkID) :
    (OwnDevice w deviceID otmType).1 = Except.error OwnErr.ownerMismatch ∧
    ∀ u, u.owned = true → Event.updateDoxm u ∉ (OwnDevice w deviceID otmType).2 := by
  have hne := findTcpSecureAddr_ne_nil links tlsAddr haddr
  cases legacy with
  | false =>
    have heq : OwnDevice w deviceID otmType =
        (Except.error OwnErr.ownerMismatch,
         [Event.updateDoxm { selectOwnerTransferMethod := some otmType },
          Event.getDeviceLinks, Event.dial tlsAddr, Event.getPstat,
          Event.updatePstat { currentOperationalMode := some OperationalMode.ClientDirected },
          Event.provisionOwnerCredentials, Event.isIotivityProbe,
          Event.updateDoxm { deviceOwner := some sdkID }, Event.getDoxm]) := by
      simp [OwnDevice, ownDeviceFinish, hfind, hsup, hsdk, hsel, hlinks, hne,
        haddr, hdial, hps, hpend, hst, hmode, hupd, hprov, hprobe, hset, hvo, hmm]
    refine ⟨by rw [heq], ?_⟩
    intro u hu hmem
    rw [heq] at hmem
    simp at hmem
    rcases hmem with h | h <;> subst h <;> simp at hu
  | true =>
    have heq : OwnDevice w deviceID otmType =
        (Except.error OwnErr.ownerMismatch,
         [Event.updateDoxm { selectOwnerTransferMethod := some otmType },
          Event.getDeviceLinks, Event.dial tlsAddr, Event.getPstat,
          Event.updatePstat { currentOperationalMode := some OperationalMode.ClientDirected },
          Event.provisionOwnerCredentials, Event.isIotivityProbe,
          Event.updateDoxm { deviceOwner := some hackId },
          Event.updateCred (iotivityHackCredential sdkID),
          Event.deleteCredBySubject hackId,
          Event.updateDoxm { deviceOwner := some sdkID }, Event.getDoxm]) := by
      simp [OwnDevice, ownDeviceFinish, iotivityHack, hfind, hsup, hsdk, hsel,
        hlinks, hne, haddr, hdial, hps, hpend, hst, hmode, hupd, hprov, hprobe,
        hhack, hset, hvo, hmm]
    refine ⟨by rw [heq], ?_⟩
    intro u hu hmem
    rw [heq] at hmem
    simp at hmem
    rcases hmem with h | h | h <;> subst h <;> simp at hu

/-- An Ownership Document whose read-back owner differs from the SDK
identity that was just written. -/
def intruderDoxm : Doxm :=
  { deviceId := "device-1"
    owned := false
    deviceOwner := "intruder-9"
    supportedOwnerTransferMethods := [] }

/-- A world in which the owner read-back reports a different owner than
the SDK identity that was just written. -/
def C3world : OwnWorld :=
  { successWorld with verifyOwner := Except.ok intruderDoxm }

/-- C3 witness: the mismatching read-back yields the owner-mismatch error,
and the MarkedOwned update (`owned = true`) is not in the trace. -/
theorem C3_owner_mismatch_blocks_marked_owned_witness :
    (OwnDevice C3world "device-1" OwnerTransferMethod.ManufacturerCertificate).1 =
      Except.error OwnErr.ownerMismatch ∧
    Event.updateDoxm
        { resourceOwner := some "owner-1", deviceId := some "device-1", owned := true } ∉
      (OwnDevice C3world "device-1" OwnerTransferMethod.ManufacturerCertificate).2 :=
  ⟨(C3_owner_mismatch_blocks_marked_owned C3world "device-1"
      OwnerTransferMethod.ManufacturerCertificate ⟨goodDoxm⟩ "owner-1"
      [⟨some "coaps+tcp://192.168.1.10:5684"⟩] "coaps+tcp://192.168.1.10:5684"
      goodPstat false intruderDoxm
      rfl rfl rfl rfl rfl rfl rfl rfl rfl rfl rfl rfl rfl rfl rfl rfl rfl
      (by decide)).1,
   (C3_owner_mismatch_blocks_marked_owned C3world "device-1"
      OwnerTransferMethod.ManufacturerCertificate ⟨goodDoxm⟩ "owner-1"
      [⟨some "coaps+tcp://192.168.1.10:5684"⟩] "coaps+tcp://192.168.1.10:5684"
      goodPstat false intruderDoxm
      rfl rfl rfl rfl rfl rfl rfl rfl rfl rfl rfl rfl rfl rfl rfl rfl rfl
      (by decide)).2
      { resourceOwner := some "owner-1", deviceId := some "device-1", owned := true }
      rfl⟩

/-- The three operations of a successful run of the compatibility patch:
write the temporary owner, write the throwaway symmetric pair-wise
credential, delete it. -/
def hackTrace (sdkID : String) : List Event :=
  [Event.updateDoxm { deviceOwner := some hackId },
   Event.updateCred (iotivityHackCredential sdkID),
   Event.deleteCredBySubject hackId]

/-- C8: the probe classifies a generic-CBOR answer as legacy, an OCF-CBOR
answer as compliant, and errors on any other content format; a successful
patch run performs exactly the temporary-owner write, the throwaway
symmetric pair-wise credential write, and its deletion; and in a
successful `OwnDevice` run the patch operations appear in the trace
exactly when the probe classified the device as legacy. -/
theorem C8_iotivity_patch_iff_legacy (w : OwnWorld) (deviceID sdkID : String)
    (otmType : OwnerTransferMethod) (client : DeviceOwnershipClient)
    (links : List ResourceLink) (tlsAddr : String)
    (ps : ProvisionStatusResponse) (legacy : Bool) (vo : Doxm)
    (hfind : w.findClient = Except.ok client)
    (hsup : supportsOtm client.ownership.supportedOwnerTransferMethods otmType = true)
    (hsdk : w.sdkDeviceID = Except.ok sdkID)
    (hsel : w.selectOtmErr = none)
    (hlinks : w.getDeviceLinks = Except.ok links)
    (haddr : findTcpSecureAddr links = some tlsAddr)
    (hdial : w.dialErr = none)
    (hps : w.provisionState = Except.ok ps)
    (hpend : ps.deviceOnboardingState.pending = false)
    (hst : ps.deviceOnboardingState.currentOrPendingOperationalState =
      OperationalState.RFOTM)
    (hmode : hasOperationalMode ps.supportedOperationalModes
      OperationalMode.ClientDirected = true)
    (hupd : w.updateProvisionStateErr = none)
    (hprov : w.provisionOwnerErr = none)
    (hprobe : IsIotivity w.probe = Except.ok legacy)
    (hhack : w.hack = ⟨none, none, none⟩)
    (hset : w.setDeviceOwnerErr = none)
    (hvo : w.verifyOwner = Except.ok vo)
    (hown : vo.deviceOwner = sdkID)
    (hsetOwned : w.setDeviceOwnedErr = none)
    (hpso : w.updateProvisionStateOwnerErr = none)
    (hacl : w.updateAclErr = none)
    (hpd : w.provisionDeviceErr = none)
    (hpc : w.provisionCloseErr = none) :
    IsIotivity { newGetRequestErr := none, exchangeErr := none
                 code := COAPCode.Content
                 contentFormat := some MediaType.AppCBOR } = Except.ok true ∧
    IsIotivity { newGetRequestErr := none, exchangeErr := none
                 code := COAPCode.Content
                 contentFormat := some MediaType.AppOcfCbor } = Except.ok false ∧
    (∀ n, IsIotivity { newGetRequestErr := none, exchangeErr := none
                       code := COAPCode.Content
                       contentFormat := some (MediaType.other n) } =
      Except.error (ProbeErr.unknownContentFormat (MediaType.other n))) ∧
    iotivityHack ⟨none, none, none⟩ sdkID = (Except.ok (), hackTrace sdkID) ∧
    OwnDevice w deviceID otmType =
      (Except.ok (),
       [Event.updateDoxm { selectOwnerTransferMethod := some otmType },
        Event.getDeviceLinks, Event.dial tlsAddr, Event.getPstat,
        Event.updatePstat { currentOperationalMode := some OperationalMode.ClientDirected },
        Event.provisionOwnerCredentials, Event.isIotivityProbe] ++
       (if legacy then hackTrace sdkID else []) ++
       [Event.updateDoxm { deviceOwner := some sdkID }, Event.getDoxm,
        Event.updateDoxm
          { resourceOwner := some sdkID, deviceId := some deviceID, owned := true },
        Event.closeTls,
        Event.updatePstat { resourceOwner := some sdkID },
        Event.updateAcl { resourceOwner := sdkID, subjectDeviceId := sdkID },
        Event.provisionDevice]) := by
  have hne := findTcpSecureAddr_ne_nil links tlsAddr haddr
  refine ⟨rfl, rfl, fun n => rfl, rfl, ?_⟩
  cases legacy with
  | false =>
    simp [OwnDevice, ownDeviceFinish, hfind, hsup, hsdk, hsel, hlinks, hne,
      haddr, hdial, hps, hpend, hst, hmode, hupd, hprov, hprobe, hset, hvo,
      hown, hsetOwned, hpso, hacl, hpd, hpc]
  | true =>
    simp [OwnDevice, ownDeviceFinish, iotivityHack, hackTrace, hfind, hsup,
      hsdk, hsel, hlinks, hne, haddr, hdial, hps, hpend, hst, hmode, hupd,
      hprov, hprobe, hhack, hset, hvo, hown, hsetOwned, hpso, hacl, hpd, hpc]

/-- A world identical to `successWorld` but whose probe answers with the
generic CBOR content format (the legacy implementation). -/
def C8world : OwnWorld :=
  { successWorld with probe := { newGetRequestErr := none, exchangeErr := none
                                 code := COAPCode.Content
                                 contentFormat := some MediaType.AppCBOR } }

/-- C8 witness: on the legacy device the full successful run contains the
three patch operations between the probe and the owner write. -/
theorem C8_iotivity_patch_iff_legacy_witness :
    IsIotivity C8world.probe = Except.ok true ∧
    OwnDevice C8world "device-1" OwnerTransferMethod.ManufacturerCertificate =
      (Except.ok (),
       [Event.updateDoxm
          { selectOwnerTransferMethod := some OwnerTransferMethod.ManufacturerCertificate },
        Event.getDeviceLinks, Event.dial "coaps+tcp://192.168.1.10:5684",
        Event.getPstat,
        Event.updatePstat { currentOperationalMode := some OperationalMode.ClientDirected },
        Event.provisionOwnerCredentials, Event.isIotivityProbe] ++
       (if true then hackTrace "owner-1" else []) ++
       [Event.updateDoxm { deviceOwner := some "owner-1" }, Event.getDoxm,
        Event.updateDoxm
          { resourceOwner := some "owner-1", deviceId := some "device-1", owned := true },
        Event.closeTls,
        Event.updatePstat { resourceOwner := some "owner-1" },
        Event.updateAcl { resourceOwner := "owner-1", subjectDeviceId := "owner-1" },
        Event.provisionDevice]) :=
  ⟨rfl,
   (C8_iotivity_patch_iff_legacy C8world "device-1" "owner-1"
      OwnerTransferMethod.ManufacturerCertificate ⟨goodDoxm⟩
      [⟨some "coaps+tcp://192.168.1.10:5684"⟩] "coaps+tcp://192.168.1.10:5684"
      goodPstat true
      { deviceId := "device-1", owned := false, deviceOwner := "owner-1"
        supportedOwnerTransferMethods := [] }
      rfl rfl rfl rfl rfl rfl rfl rfl rfl rfl rfl rfl rfl rfl rfl rfl rfl rfl
      rfl rfl rfl rfl rfl).2.2.2.2⟩

/-- When every required delete succeeds, the cleanup loop succeeds and
deletes, in order, exactly the credentials satisfying
`shouldDeleteCred`. -/
theorem deleteOldCredentials_all_ok (f : Int → Option Err)
    (L : List Credential)
    (h : ∀ c ∈ L, shouldDeleteCred c = true → f c.id = none) :
    deleteOldCredentials f L =
      (Except.ok (),
       (L.filter shouldDeleteCred).map fun c => Event.deleteCredById c.id) := by
  induction L with
  | nil => rfl
  | cons c rest ih =>
    have hrest : ∀ x ∈ rest, shouldDeleteCred x = true → f x.id = none :=
      fun x hx => h x (List.mem_cons_of_mem c hx)
    cases hc : shouldDeleteCred c with
    | true =>
      have hf : f c.id = none := h c (List.mem_cons_self c rest) hc
      simp [deleteOldCredentials, hc, hf, ih hrest, List.filter_cons]
    | false =>
      simp [deleteOldCredentials, hc, ih hrest, List.filter_cons]

/-- When every trust-anchor write succeeds, the CA loop succeeds and
writes, in order, one trust-anchor credential per CA. -/
theorem setCaCredentials_all_ok (g : CredentialUpdateRequest → Option Err)
    (ownerID : String) (CAs : List String)
    (h : ∀ ca ∈ CAs, g (caCredentialRequest ownerID ca) = none) :
    setCaCredentials g ownerID CAs =
      (Except.ok (),
       CAs.map fun ca => Event.updateCred (caCredentialRequest ownerID ca)) := by
  induction CAs with
  | nil => rfl
  | cons ca rest ih =>
    have hrest : ∀ x ∈ rest, g (caCredentialRequest ownerID x) = none :=
      fun x hx => h x (List.mem_cons_of_mem ca hx)
    have hca : g (caCredentialRequest ownerID ca) = none :=
      h ca (List.mem_cons_self ca rest)
    simp [setCaCredentials, hca, ih hrest]

/-- C5: in a successful `ProvisionOwnerCredentials` run, exactly the
existing asymmetric-signing-with-certificate credentials with usage CERT
or TRUST_CA are deleted, all of them before the new identity credential —
subject the device identity, usage CERT, public data the signed
certificate tagged DER — is written; afterwards one trust-anchor
credential with subject the owner identity is written per owner-held CA
certificate. -/
theorem C5_provision_owner_credentials (w : ProvisionWorld) (CAs : List String)
    (ownerID deviceID : String) (csr : CertificateSigningRequestResponse)
    (der signedCsr : String) (L : List Credential)
    (hcsr : w.csrResult = Except.ok csr)
    (henc : encodeToDer w.pemDecode csr.encoding csr.certificateSigningRequest =
      Except.ok der)
    (hsign : w.sign der = Except.ok signedCsr)
    (hcred : w.credResult = Except.ok ⟨L⟩)
    (hdel : ∀ c ∈ L, shouldDeleteCred c = true → w.deleteCredErr c.id = none)
    (hid : w.updateCredErr (identityCredentialRequest ownerID deviceID signedCsr) = none)
    (hca : ∀ ca ∈ CAs, w.updateCredErr (caCredentialRequest ownerID ca) = none) :
    ProvisionOwnerCredentials w CAs ownerID deviceID =
      (Except.ok (),
       [Event.getCsr, Event.getCred deviceID] ++
       (L.filter shouldDeleteCred).map (fun c => Event.deleteCredById c.id) ++
       [Event.updateCred (identityCredentialRequest ownerID deviceID signedCsr)] ++
       CAs.map fun ca => Event.updateCred (caCredentialRequest ownerID ca)) := by
  simp [ProvisionOwnerCredentials, hcsr, henc, hsign, hcred,
    deleteOldCredentials_all_ok w.deleteCredErr L hdel, hid,
    setCaCredentials_all_ok w.updateCredErr ownerID CAs hca]

/-- An existing identity certificate credential (to be deleted). -/
def staleCertCred : Credential :=
  { id := 1
    subject := "device-1"
    ctype := CredentialType.ASYMMETRIC_SIGNING_WITH_CERTIFICATE
    usage := some CredentialUsage.CERT }

/-- An existing trust-anchor credential (to be deleted). -/
def staleTrustCaCred : Credential :=
  { id := 2
    subject := "old-owner"
    ctype := CredentialType.ASYMMETRIC_SIGNING_WITH_CERTIFICATE
    usage := some CredentialUsage.TRUST_CA }

/-- An existing symmetric credential (not to be deleted). -/
def keptSymCred : Credential :=
  { id := 3
    subject := "device-1"
    ctype := CredentialType.SYMMETRIC_PAIR_WISE }

/-- A concrete provisioning world: the CSR is already DER, the signer
succeeds, the device holds the three credentials above, and every delete
and update succeeds. -/
def C5world : ProvisionWorld :=
  { pemDecode := fun _ => none
    csrResult := Except.ok { encoding := CertificateEncoding.DER
                             certificateSigningRequest := "csr-der" }
    sign := fun d => Except.ok ("signed:" ++ d)
    credResult := Except.ok ⟨[staleCertCred, staleTrustCaCred, keptSymCred]⟩
    deleteCredErr := fun _ => none
    updateCredErr := fun _ => none }

/-- C5 witness: the concrete run deletes credentials 1 and 2 (not 3)
before writing the identity credential, then writes one trust-anchor
credential for the single owner-held CA. -/
theorem C5_provision_owner_credentials_witness :
    ProvisionOwnerCredentials C5world ["ca-der-1"] "owner-1" "device-1" =
      (Except.ok (),
       [Event.getCsr, Event.getCred "device-1"] ++
       ([staleCertCred, staleTrustCaCred, keptSymCred].filter shouldDeleteCred).map
         (fun c => Event.deleteCredById c.id) ++
       [Event.updateCred (identityCredentialRequest "owner-1" "device-1" "signed:csr-der")] ++
       ["ca-der-1"].map fun ca => Event.updateCred (caCredentialRequest "owner-1" ca)) :=
  C5_provision_owner_credentials C5world ["ca-der-1"] "owner-1" "device-1"
    { encoding := CertificateEncoding.DER, certificateSigningRequest := "csr-der" }
    "csr-der" "signed:csr-der" [staleCertCred, staleTrustCaCred, keptSymCred]
    rfl rfl rfl rfl (fun _ _ _ => rfl) rfl (fun _ _ => rfl)

end OcfSdk
